import Mathlib

/-
Shallow embedding of the Order aggregate of the EcommerceCleanArchitecture
repository (src/src/domain/order/entities/Order.ts).

JavaScript numbers are modelled as exact rationals; `Math.round` on exact
values equals `fun x => Int.floor (x + 1/2)`, which is what the embedding of
`Order.round` uses.  Mutating methods that may throw are modelled as
functions returning `Option String × Order`: the first component is the
raised error message (`none` on success) and the second is the state of the
object after the call, which, matching the source, may differ from the
initial state even when an error was raised (addItem / updateItemQuantity
mutate before validating).  `Order.create` takes the creation instant as an
explicit `now` parameter standing for `new Date()`.
-/

namespace EcommerceOrder

inductive OrderStatus where
  | Pending
  | Confirmed
  | Processing
  | Shipped
  | Delivered
  | Cancelled
deriving DecidableEq, Repr

/-- `OrderItem` interface from Order.ts. -/
structure OrderItem where
  orderItemId : String
  productId : String
  quantity : ℚ
  priceAtPurchase : ℚ
  warehouseId : String
  discountAmount : ℚ
deriving DecidableEq, Repr

/-- The private fields of the `Order` class. -/
structure Order where
  orderId : String
  userId : String
  orderDate : ℚ
  status : OrderStatus
  items : List OrderItem
  orderDiscount : ℚ
deriving DecidableEq, Repr

/-- Floor of a rational as an integer, computed by floor-division of the
numerator by the denominator. -/
def ratFloor (q : ℚ) : ℤ := Int.fdiv q.num (q.den : ℤ)

/-- `Order.round`: `Number((Math.round(value * 100) / 100).toFixed(2))`.
On exact rationals `Math.round x = floor (x + 1/2)` (ties toward
positive infinity), and the `toFixed(2)`/`Number` pass is the identity on a
value that is already an integer number of cents. -/
def round (value : ℚ) : ℚ := (ratFloor (value * 100 + 1/2) : ℚ) / 100

/-- `Order.calculateRawSubtotal`: sum of `priceAtPurchase * quantity`,
rounded once at the end. -/
def calculateRawSubtotal (items : List OrderItem) : ℚ :=
  round (items.foldl (fun acc it => acc + it.priceAtPurchase * it.quantity) 0)

/-- `Order.calculateItemDiscountsTotal`: sum of the fixed line-level
`discountAmount`s, rounded once at the end. -/
def calculateItemDiscountsTotal (items : List OrderItem) : ℚ :=
  round (items.foldl (fun acc it => acc + it.discountAmount) 0)

/-- `Order.calculateTotalAfterItemDiscounts`. -/
def calculateTotalAfterItemDiscounts (items : List OrderItem) : ℚ :=
  round (calculateRawSubtotal items - calculateItemDiscountsTotal items)

/-- `Order.validateOrderDiscount` as an error-returning check. -/
def validateOrderDiscount (o : Order) : Option String :=
  if o.orderDiscount > calculateTotalAfterItemDiscounts o.items then
    some "Discount amount cannot be greater than total amount"
  else
    none

/-- The literal transition table inside `Order.isValidStatusTransition`. -/
def validTransitions : OrderStatus → List OrderStatus
  | .Pending => [.Confirmed, .Cancelled]
  | .Confirmed => [.Processing, .Cancelled]
  | .Processing => [.Shipped, .Cancelled]
  | .Shipped => [.Delivered, .Cancelled]
  | .Delivered => []
  | .Cancelled => []

/-- The string a status interpolates to in the error template of
`Order.updateStatus`. -/
def statusToString : OrderStatus → String
  | .Pending => "Pending"
  | .Confirmed => "Confirmed"
  | .Processing => "Processing"
  | .Shipped => "Shipped"
  | .Delivered => "Delivered"
  | .Cancelled => "Cancelled"

/-- `Order.canModifyItems`: `['Pending'].includes(this._status)`. -/
def canModifyItems (o : Order) : Prop := o.status = OrderStatus.Pending

instance (o : Order) : Decidable (canModifyItems o) := by
  unfold canModifyItems; infer_instance

/-- `Order.updateStatus`. -/
def updateStatus (o : Order) (newStatus : OrderStatus) : Option String × Order :=
  if newStatus ∈ validTransitions o.status then
    (none, { o with status := newStatus })
  else
    (some ("Invalid status transition from " ++ statusToString o.status ++
      " to " ++ statusToString newStatus), o)

/-- `Order.addItem`: status gate, push the item, then validate the order
discount.  The push is NOT rolled back when the validation throws: the
second component of the result carries the appended item in either case. -/
def addItem (o : Order) (item : OrderItem) : Option String × Order :=
  if canModifyItems o then
    let o' : Order := { o with items := o.items ++ [item] }
    (validateOrderDiscount o', o')
  else
    (some "Cannot modify items in current order status", o)

/-- `Order.removeItem`: status gate, find the item, last-item check,
hypothetical-total check, and only then commit the filtered list.  The
filter removes every item whose `orderItemId` equals the argument. -/
def removeItem (o : Order) (orderItemId : String) : Option String × Order :=
  if canModifyItems o then
    match o.items.find? (fun it => it.orderItemId = orderItemId) with
    | none => (some "Item not found in order", o)
    | some _ =>
      if o.items.length = 1 then
        (some "Cannot remove last item from order", o)
      else
        let newItems := o.items.filter (fun it => ¬ it.orderItemId = orderItemId)
        let newTotal := calculateTotalAfterItemDiscounts newItems
        if o.orderDiscount > newTotal then
          (some "Discount amount cannot be greater than total amount", o)
        else
          (none, { o with items := newItems })
  else
    (some "Cannot modify items in current order status", o)

/-- In-place mutation `item.quantity = newQuantity` performed on the first
item `Array.prototype.find` returns. -/
def setQuantityFirst : List OrderItem → String → ℚ → List OrderItem
  | [], _, _ => []
  | it :: rest, orderItemId, q =>
    if it.orderItemId = orderItemId then
      { it with quantity := q } :: rest
    else
      it :: setQuantityFirst rest orderItemId q

/-- `Order.updateItemQuantity`: status gate, positivity check, find the
item, mutate its quantity in place, then validate the order discount.  As
in `addItem`, the quantity mutation is not rolled back on a validation
error. -/
def updateItemQuantity (o : Order) (orderItemId : String) (newQuantity : ℚ) :
    Option String × Order :=
  if canModifyItems o then
    if newQuantity ≤ 0 then
      (some "Quantity must be greater than zero", o)
    else
      match o.items.find? (fun it => it.orderItemId = orderItemId) with
      | none => (some "Item not found in order", o)
      | some _ =>
        let o' : Order := { o with items := setQuantityFirst o.items orderItemId newQuantity }
        (validateOrderDiscount o', o')
  else
    (some "Cannot modify items in current order status", o)

/-- `Order.updateDiscountAmount`: round, reject negatives, reject amounts
above the current total, then commit.  No status gate. -/
def updateDiscountAmount (o : Order) (amount : ℚ) : Option String × Order :=
  let roundedAmount := round amount
  if roundedAmount < 0 then
    (some "Discount amount cannot be negative", o)
  else if roundedAmount > calculateTotalAfterItemDiscounts o.items then
    (some "Discount amount cannot be greater than total amount", o)
  else
    (none, { o with orderDiscount := roundedAmount })

/-- `Order.create`: the validating factory.  `now` stands for the
`new Date()` read of the clock. -/
def create (orderId userId : String) (items : List OrderItem)
    (discountAmount : ℚ) (now : ℚ) : Except String Order :=
  if orderId = "" then .error "Order ID is required"
  else if userId = "" then .error "User ID is required"
  else if items.isEmpty then .error "Order must contain at least one item"
  else
    let roundedDiscountAmount := round discountAmount
    if roundedDiscountAmount < 0 then
      .error "Discount amount cannot be negative"
    else if roundedDiscountAmount > calculateTotalAfterItemDiscounts items then
      .error "Discount amount cannot be greater than total amount"
    else
      .ok ⟨orderId, userId, now, .Pending, items.map (fun it => it), roundedDiscountAmount⟩

/-- `Order.create` with the `discountAmount = 0` default applied. -/
def createDefault (orderId userId : String) (items : List OrderItem) (now : ℚ) :
    Except String Order :=
  create orderId userId items 0 now

/-- Getter `subtotal`. -/
def Order.subtotal (o : Order) : ℚ := calculateRawSubtotal o.items

/-- Getter `itemDiscounts`. -/
def Order.itemDiscounts (o : Order) : ℚ := calculateItemDiscountsTotal o.items

/-- Getter `totalAmount`. -/
def Order.totalAmount (o : Order) : ℚ := calculateTotalAfterItemDiscounts o.items

/-- Getter `finalAmount`. -/
def Order.finalAmount (o : Order) : ℚ := round (o.totalAmount - o.orderDiscount)

/-- States of the aggregate reachable through the factory followed by any
sequence of SUCCESSFUL mutations (the error component is `none`). -/
inductive Reachable : Order → Prop where
  | created (orderId userId : String) (items : List OrderItem) (d now : ℚ) (o : Order) :
      create orderId userId items d now = .ok o → Reachable o
  | stepStatus (o : Order) (s : OrderStatus) (o' : Order) :
      Reachable o → updateStatus o s = (none, o') → Reachable o'
  | stepAdd (o : Order) (it : OrderItem) (o' : Order) :
      Reachable o → addItem o it = (none, o') → Reachable o'
  | stepRemove (o : Order) (orderItemId : String) (o' : Order) :
      Reachable o → removeItem o orderItemId = (none, o') → Reachable o'
  | stepQuantity (o : Order) (orderItemId : String) (q : ℚ) (o' : Order) :
      Reachable o → updateItemQuantity o orderItemId q = (none, o') → Reachable o'
  | stepDiscount (o : Order) (a : ℚ) (o' : Order) :
      Reachable o → updateDiscountAmount o a = (none, o') → Reachable o'

/-! ### Sample data from the test suite (Order.test.ts) -/

/-- The `validOrderItem` fixture of the test suite. -/
def sampleItem : OrderItem :=
  ⟨"item-123", "prod-123", 2, 99.99, "wh-123", 10⟩

/-- The order built by `Order.create` from the `validOrderData` fixture
(`discountAmount = 5`), with the creation instant fixed at `0`. -/
def sampleOrder : Order :=
  ⟨"order-123", "user-123", 0, .Pending, [sampleItem], 5⟩

/-- A plain line item: one unit at price 100, no line discount. -/
def itemA : OrderItem := ⟨"item-1", "prod-1", 1, 100, "wh-1", 0⟩

/-- A second line item: one unit at price 40, no line discount. -/
def itemB : OrderItem := ⟨"item-2", "prod-2", 1, 40, "wh-2", 0⟩

/-- A line item whose fixed line discount (100) exceeds its own subtotal
(0): nothing in `addItem` validates the item itself, so appending it can
lower the order total. -/
def badItem : OrderItem := ⟨"item-3", "prod-3", 1, 0, "wh-3", 100⟩

/-- A line item sharing `itemA`'s `orderItemId` but differing elsewhere. -/
def dupItem : OrderItem := ⟨"item-1", "prod-9", 1, 100, "wh-9", 0⟩

/-- A Pending order holding `itemA` with order discount 50. -/
def orderA : Order := ⟨"order-A", "user-A", 0, .Pending, [itemA], 50⟩

/-- A Pending order holding `itemA` and `itemB` with order discount 0. -/
def orderB : Order := ⟨"order-B", "user-B", 0, .Pending, [itemA, itemB], 0⟩

/-- A Pending order holding only `itemA`, order discount 0. -/
def orderC : Order := ⟨"order-C", "user-C", 0, .Pending, [itemA], 0⟩

/-- A Pending order holding two items that share the id "item-1" plus
`itemB`, order discount 0. -/
def orderD : Order := ⟨"order-D", "user-D", 0, .Pending, [itemA, dupItem, itemB], 0⟩

/-! ### General lemmas about the embedded operations -/

theorem ratFloor_eq_floor (q : ℚ) : ratFloor q = Int.floor q := by
  rw [Rat.floor_def, ratFloor, Int.fdiv_eq_ediv _ (by positivity)]

theorem round_eq (v : ℚ) : round v = ((Int.floor (v * 100 + 1/2) : ℤ) : ℚ) / 100 := by
  rw [round, ratFloor_eq_floor]

theorem round_intCast (n : ℤ) : round (n : ℚ) = n := by
  have h : (n : ℚ) * 100 + 1/2 = (n * 100 : ℤ) + (1/2 : ℚ) := by push_cast; ring
  rw [round_eq, h, Int.floor_int_add]
  norm_num

theorem sample_subtotal : calculateRawSubtotal [sampleItem] = 199.98 := by
  simp only [calculateRawSubtotal, List.foldl, sampleItem, round_eq]
  norm_num

theorem sample_itemDiscounts : calculateItemDiscountsTotal [sampleItem] = 10 := by
  simp only [calculateItemDiscountsTotal, List.foldl, sampleItem, round_eq]
  norm_num

theorem sample_total : calculateTotalAfterItemDiscounts [sampleItem] = 189.98 := by
  simp only [calculateTotalAfterItemDiscounts, sample_subtotal, sample_itemDiscounts, round_eq]
  norm_num

theorem total_itemA : calculateTotalAfterItemDiscounts [itemA] = 100 := by
  simp only [calculateTotalAfterItemDiscounts, calculateRawSubtotal,
    calculateItemDiscountsTotal, List.foldl, itemA, round_eq]
  norm_num

theorem total_itemB : calculateTotalAfterItemDiscounts [itemB] = 40 := by
  simp only [calculateTotalAfterItemDiscounts, calculateRawSubtotal,
    calculateItemDiscountsTotal, List.foldl, itemB, round_eq]
  norm_num

theorem total_itemA_badItem : calculateTotalAfterItemDiscounts [itemA, badItem] = 0 := by
  simp only [calculateTotalAfterItemDiscounts, calculateRawSubtotal,
    calculateItemDiscountsTotal, List.foldl, itemA, badItem, round_eq]
  norm_num

theorem total_itemA_dupItem : calculateTotalAfterItemDiscounts [itemA, dupItem] = 200 := by
  simp only [calculateTotalAfterItemDiscounts, calculateRawSubtotal,
    calculateItemDiscountsTotal, List.foldl, itemA, dupItem, round_eq]
  norm_num

theorem round_fifty : round 50 = 50 := by
  have := round_intCast 50; push_cast at this; rw [this]

theorem round_five_nonneg : (0 : ℚ) ≤ round 5 := by
  have := round_intCast 5; push_cast at this; rw [this]; norm_num

theorem round_five_le_sample_total :
    round 5 ≤ calculateTotalAfterItemDiscounts [sampleItem] := by
  have := round_intCast 5; push_cast at this
  rw [this, sample_total]; norm_num

theorem round_twenty_nonneg : (0 : ℚ) ≤ round 20 := by
  have := round_intCast 20; push_cast at this; rw [this]; norm_num

theorem round_twenty_le_sample_total :
    round 20 ≤ calculateTotalAfterItemDiscounts sampleOrder.items := by
  have := round_intCast 20; push_cast at this
  rw [this, show sampleOrder.items = [sampleItem] from rfl, sample_total]; norm_num

theorem round_zero : round 0 = 0 := by
  have := round_intCast 0; push_cast at this; rw [this]

theorem create_orderA : create "order-A" "user-A" [itemA] 50 0 = .ok orderA := by
  simp only [create, round_fifty, total_itemA]
  rw [if_neg (by decide), if_neg (by decide), if_neg (by decide), if_neg (by norm_num),
    if_neg (by norm_num)]
  simp [orderA, List.map_id']

theorem create_orderC : create "order-C" "user-C" [itemA] 0 0 = .ok orderC := by
  simp only [create, round_zero, total_itemA]
  rw [if_neg (by decide), if_neg (by decide), if_neg (by decide), if_neg (by norm_num),
    if_neg (by norm_num)]
  simp [orderC, List.map_id']

/-- `setQuantityFirst` only changes a quantity: the id sequence of the item
list is unchanged. -/
theorem setQuantityFirst_map_ids (l : List OrderItem) (orderItemId : String) (q : ℚ) :
    (setQuantityFirst l orderItemId q).map (fun it => it.orderItemId) =
      l.map (fun it => it.orderItemId) := by
  induction l with
  | nil => rfl
  | cons it rest ih =>
    by_cases h : it.orderItemId = orderItemId
    · simp [setQuantityFirst, if_pos h]
    · simp [setQuantityFirst, if_neg h, ih]

theorem create_sample :
    create "order-123" "user-123" [sampleItem] 5 0 = .ok sampleOrder := by
  have h5 : round 5 = 5 := by
    have := round_intCast 5
    norm_num at this
    simpa using this
  simp only [create, h5, sample_total]
  rw [if_neg (by decide), if_neg (by decide), if_neg (by decide), if_neg (by norm_num),
    if_neg (by norm_num)]
  simp [sampleOrder, List.map_id']

/-- Successful `updateStatus` calls are exactly the table transitions, and
they only replace the status field. -/
theorem updateStatus_ok {o : Order} {s : OrderStatus} {o' : Order}
    (h : updateStatus o s = (none, o')) :
    s ∈ validTransitions o.status ∧ o' = { o with status := s } := by
  by_cases hm : s ∈ validTransitions o.status
  · simp only [updateStatus, if_pos hm, Prod.mk.injEq] at h
    exact ⟨hm, h.2.symm⟩
  · simp only [updateStatus, if_neg hm, Prod.mk.injEq] at h
    exact absurd h.1 (by simp)

/-- Shape of a successful `addItem` call. -/
theorem addItem_ok {o : Order} {it : OrderItem} {o' : Order}
    (h : addItem o it = (none, o')) :
    canModifyItems o ∧ o' = { o with items := o.items ++ [it] } ∧
      o.orderDiscount ≤ calculateTotalAfterItemDiscounts (o.items ++ [it]) := by
  by_cases hm : canModifyItems o
  · simp only [addItem, if_pos hm, Prod.mk.injEq] at h
    refine ⟨hm, h.2.symm, ?_⟩
    have hv := h.1
    simp only [validateOrderDiscount] at hv
    by_cases hgt : o.orderDiscount > calculateTotalAfterItemDiscounts (o.items ++ [it])
    · rw [if_pos hgt] at hv; exact absurd hv (by simp)
    · exact le_of_not_lt hgt
  · simp only [addItem, if_neg hm, Prod.mk.injEq] at h
    exact absurd h.1 (by simp)

/-- Shape of a successful `removeItem` call. -/
theorem removeItem_ok {o : Order} {orderItemId : String} {o' : Order}
    (h : removeItem o orderItemId = (none, o')) :
    canModifyItems o ∧
      (o.items.find? (fun it => it.orderItemId = orderItemId)).isSome ∧
      o.items.length ≠ 1 ∧
      o' = { o with items := o.items.filter (fun it => ¬ it.orderItemId = orderItemId) } ∧
      o.orderDiscount ≤ calculateTotalAfterItemDiscounts
        (o.items.filter (fun it => ¬ it.orderItemId = orderItemId)) := by
  by_cases hm : canModifyItems o
  · simp only [removeItem, if_pos hm] at h
    cases hf : o.items.find? (fun it => it.orderItemId = orderItemId) with
    | none => rw [hf] at h; exact absurd (Prod.mk.injEq .. ▸ h).1 (by simp)
    | some it0 =>
      rw [hf] at h
      by_cases hl : o.items.length = 1
      · rw [if_pos hl] at h; exact absurd (Prod.mk.injEq .. ▸ h).1 (by simp)
      · rw [if_neg hl] at h
        by_cases hgt : o.orderDiscount > calculateTotalAfterItemDiscounts
            (o.items.filter (fun it => ¬ it.orderItemId = orderItemId))
        · rw [if_pos hgt] at h; exact absurd (Prod.mk.injEq .. ▸ h).1 (by simp)
        · rw [if_neg hgt] at h
          exact ⟨hm, by simp [hf], hl, (Prod.mk.injEq .. ▸ h).2.symm, le_of_not_lt hgt⟩
  · simp only [removeItem, if_neg hm, Prod.mk.injEq] at h
    exact absurd h.1 (by simp)

/-- Shape of a successful `updateItemQuantity` call. -/
theorem updateItemQuantity_ok {o : Order} {orderItemId : String} {q : ℚ} {o' : Order}
    (h : updateItemQuantity o orderItemId q = (none, o')) :
    canModifyItems o ∧ 0 < q ∧
      (o.items.find? (fun it => it.orderItemId = orderItemId)).isSome ∧
      o' = { o with items := setQuantityFirst o.items orderItemId q } ∧
      o.orderDiscount ≤ calculateTotalAfterItemDiscounts
        (setQuantityFirst o.items orderItemId q) := by
  by_cases hm : canModifyItems o
  · simp only [updateItemQuantity, if_pos hm] at h
    by_cases hq : q ≤ 0
    · rw [if_pos hq] at h; exact absurd (Prod.mk.injEq .. ▸ h).1 (by simp)
    · rw [if_neg hq] at h
      cases hf : o.items.find? (fun it => it.orderItemId = orderItemId) with
      | none => rw [hf] at h; exact absurd (Prod.mk.injEq .. ▸ h).1 (by simp)
      | some it0 =>
        rw [hf] at h
        have hv := (Prod.mk.injEq .. ▸ h).1
        simp only [validateOrderDiscount] at hv
        by_cases hgt : o.orderDiscount > calculateTotalAfterItemDiscounts
            (setQuantityFirst o.items orderItemId q)
        · rw [if_pos hgt] at hv; exact absurd hv (by simp)
        · exact ⟨hm, lt_of_not_le hq, by simp [hf], (Prod.mk.injEq .. ▸ h).2.symm,
            le_of_not_lt hgt⟩
  · simp only [updateItemQuantity, if_neg hm, Prod.mk.injEq] at h
    exact absurd h.1 (by simp)

/-- Shape of a successful `updateDiscountAmount` call. -/
theorem updateDiscountAmount_ok {o : Order} {a : ℚ} {o' : Order}
    (h : updateDiscountAmount o a = (none, o')) :
    0 ≤ round a ∧ round a ≤ calculateTotalAfterItemDiscounts o.items ∧
      o' = { o with orderDiscount := round a } := by
  by_cases hneg : round a < 0
  · simp only [updateDiscountAmount, if_pos hneg, Prod.mk.injEq] at h
    exact absurd h.1 (by simp)
  · by_cases hgt : round a > calculateTotalAfterItemDiscounts o.items
    · simp only [updateDiscountAmount, if_neg hneg, if_pos hgt, Prod.mk.injEq] at h
      exact absurd h.1 (by simp)
    · simp only [updateDiscountAmount, if_neg hneg, if_neg hgt, Prod.mk.injEq] at h
      exact ⟨le_of_not_lt hneg, le_of_not_lt hgt, h.2.symm⟩

/-- Shape of a successful `create` call. -/
theorem create_ok {orderId userId : String} {items : List OrderItem}
    {d now : ℚ} {o : Order} (h : create orderId userId items d now = .ok o) :
    orderId ≠ "" ∧ userId ≠ "" ∧ items ≠ [] ∧ 0 ≤ round d ∧
      round d ≤ calculateTotalAfterItemDiscounts items ∧
      o = ⟨orderId, userId, now, .Pending, items, round d⟩ := by
  by_cases h1 : orderId = ""
  · simp [create, h1] at h
  · by_cases h2 : userId = ""
    · simp [create, h1, h2] at h
    · by_cases h3 : items.isEmpty
      · simp [create, h1, h2, h3] at h
      · by_cases h4 : round d < 0
        · simp [create, h1, h2, h3, h4] at h
        · by_cases h5 : round d > calculateTotalAfterItemDiscounts items
          · simp [create, h1, h2, h3, h4, h5] at h
          · simp only [create, if_neg h1, if_neg h2, if_neg h3, if_neg h4, if_neg h5,
              Except.ok.injEq] at h
            refine ⟨h1, h2, by simpa using h3, le_of_not_lt h4, le_of_not_lt h5, ?_⟩
            rw [← h]
            simp [List.map_id']

/-! ### Claims -/

/-- C2: for every Order, `rawSubtotal` is the rounded sum of
`priceAtPurchase * quantity` over the items, `itemDiscountsTotal` is the
rounded sum of the per-line `discountAmount`s (once per line, not scaled by
quantity), `totalAmount = round (rawSubtotal - itemDiscountsTotal)` and
`finalAmount = round (totalAmount - orderDiscount)`; in particular one item
with price 99.99, quantity 2, item discount 10 and order discount 5 yields
rawSubtotal 199.98, totalAmount 189.98 and finalAmount 184.98. -/
theorem c2_derived_amounts :
    (∀ o : Order,
      o.subtotal = round (o.items.foldl
        (fun acc it => acc + it.priceAtPurchase * it.quantity) 0) ∧
      o.itemDiscounts = round (o.items.foldl (fun acc it => acc + it.discountAmount) 0) ∧
      o.totalAmount = round (o.subtotal - o.itemDiscounts) ∧
      o.finalAmount = round (o.totalAmount - o.orderDiscount)) ∧
    sampleOrder.subtotal = 199.98 ∧
    sampleOrder.itemDiscounts = 10 ∧
    sampleOrder.totalAmount = 189.98 ∧
    sampleOrder.finalAmount = 184.98 := by
  refine ⟨fun o => ⟨rfl, rfl, rfl, rfl⟩, ?_, ?_, ?_, ?_⟩
  · exact sample_subtotal
  · exact sample_itemDiscounts
  · exact sample_total
  · show round (Order.totalAmount sampleOrder - sampleOrder.orderDiscount) = 184.98
    rw [show Order.totalAmount sampleOrder = 189.98 from sample_total]
    rw [round_eq]
    norm_num [sampleOrder]

/-- C3: `updateStatus next` succeeds iff `next` is in the allowed-next set
of the literal transition table (Pending -> Confirmed/Cancelled, Confirmed
-> Processing/Cancelled, Processing -> Shipped/Cancelled, Shipped ->
Delivered/Cancelled, Delivered and Cancelled terminal); on success only the
status field is replaced, on failure the error names both the current and
the requested state and the order is unchanged. -/
theorem c3_updateStatus :
    (∀ (o : Order) (next : OrderStatus),
      ((updateStatus o next).1 = none ↔ next ∈ validTransitions o.status) ∧
      (next ∈ validTransitions o.status →
        updateStatus o next = (none, { o with status := next })) ∧
      (next ∉ validTransitions o.status →
        updateStatus o next =
          (some ("Invalid status transition from " ++ statusToString o.status ++
            " to " ++ statusToString next), o))) ∧
    validTransitions .Pending = [.Confirmed, .Cancelled] ∧
    validTransitions .Confirmed = [.Processing, .Cancelled] ∧
    validTransitions .Processing = [.Shipped, .Cancelled] ∧
    validTransitions .Shipped = [.Delivered, .Cancelled] ∧
    validTransitions .Delivered = [] ∧
    validTransitions .Cancelled = [] := by
  refine ⟨fun o next => ⟨?_, ?_, ?_⟩, rfl, rfl, rfl, rfl, rfl, rfl⟩
  · by_cases hm : next ∈ validTransitions o.status
    · simp [updateStatus, if_pos hm, hm]
    · simp [updateStatus, if_neg hm, hm]
  · intro hm; simp [updateStatus, if_pos hm]
  · intro hm; simp [updateStatus, if_neg hm]

/-- Witness for C3: from the sample Pending order, `Confirmed` is accepted
and replaces only the status. -/
theorem c3_witness :
    updateStatus sampleOrder .Confirmed = (none, { sampleOrder with status := .Confirmed }) :=
  (c3_updateStatus.1 sampleOrder .Confirmed).2.1 (by decide)

/-- C6: `create` validates in order — orderId non-empty, then userId
non-empty, then items non-empty, then rounds the discount, then rejects a
negative rounded discount, then rejects a rounded discount above the total
computed from the items; each failure yields exactly the first failing
check's error and no object; on success the order is Pending, stores the
rounded discount, stores the input items (shallow copies, equal as values)
and the creation instant; omitting `discountAmount` defaults it to 0. -/
theorem c6_create :
    (∀ (userId : String) (items : List OrderItem) (d now : ℚ),
      create "" userId items d now = .error "Order ID is required") ∧
    (∀ (orderId : String) (items : List OrderItem) (d now : ℚ), orderId ≠ "" →
      create orderId "" items d now = .error "User ID is required") ∧
    (∀ (orderId userId : String) (d now : ℚ), orderId ≠ "" → userId ≠ "" →
      create orderId userId [] d now = .error "Order must contain at least one item") ∧
    (∀ (orderId userId : String) (items : List OrderItem) (d now : ℚ),
      orderId ≠ "" → userId ≠ "" → items ≠ [] → round d < 0 →
      create orderId userId items d now = .error "Discount amount cannot be negative") ∧
    (∀ (orderId userId : String) (items : List OrderItem) (d now : ℚ),
      orderId ≠ "" → userId ≠ "" → items ≠ [] → 0 ≤ round d →
      calculateTotalAfterItemDiscounts items < round d →
      create orderId userId items d now =
        .error "Discount amount cannot be greater than total amount") ∧
    (∀ (orderId userId : String) (items : List OrderItem) (d now : ℚ),
      orderId ≠ "" → userId ≠ "" → items ≠ [] → 0 ≤ round d →
      round d ≤ calculateTotalAfterItemDiscounts items →
      create orderId userId items d now =
        .ok ⟨orderId, userId, now, .Pending, items, round d⟩) ∧
    (∀ (orderId userId : String) (items : List OrderItem) (now : ℚ),
      createDefault orderId userId items now = create orderId userId items 0 now) := by
  refine ⟨?_, ?_, ?_, ?_, ?_, ?_, fun _ _ _ _ => rfl⟩
  · intro userId items d now; simp [create]
  · intro orderId items d now h1; simp [create, h1]
  · intro orderId userId d now h1 h2; simp [create, h1, h2]
  · intro orderId userId items d now h1 h2 h3 h4
    simp [create, h1, h2, List.isEmpty_iff.not.mpr h3, h4]
  · intro orderId userId items d now h1 h2 h3 h4 h5
    rw [create, if_neg h1, if_neg h2,
      if_neg (by simpa using List.isEmpty_iff.not.mpr h3),
      if_neg (not_lt.mpr h4), if_pos h5]
  · intro orderId userId items d now h1 h2 h3 h4 h5
    rw [create, if_neg h1, if_neg h2,
      if_neg (by simpa using List.isEmpty_iff.not.mpr h3),
      if_neg (not_lt.mpr h4), if_neg (not_lt.mpr h5)]
    simp [List.map_id']

/-- Witness for C6: the test-suite fixture construction succeeds with a
Pending status, the rounded discount 5 and the creation instant 0. -/
theorem c6_witness :
    create "order-123" "user-123" [sampleItem] 5 0 =
      .ok ⟨"order-123", "user-123", 0, .Pending, [sampleItem], round 5⟩ :=
  c6_create.2.2.2.2.2.1 "order-123" "user-123" [sampleItem] 5 0
    (by decide) (by decide) (by simp) round_five_nonneg round_five_le_sample_total

/-- C7: while the status is not Pending, `addItem`, `removeItem` and
`updateItemQuantity` fail with the fixed cannot-modify-items error and
change nothing, and each succeeds only in Pending; `updateDiscountAmount`
is not gated by status: its result commutes with replacing the status, and
a rounded amount inside `[0, totalAmount]` always commits in any status. -/
theorem c7_status_gating :
    (∀ (o : Order) (it : OrderItem), o.status ≠ .Pending →
      addItem o it = (some "Cannot modify items in current order status", o)) ∧
    (∀ (o : Order) (orderItemId : String), o.status ≠ .Pending →
      removeItem o orderItemId = (some "Cannot modify items in current order status", o)) ∧
    (∀ (o : Order) (orderItemId : String) (q : ℚ), o.status ≠ .Pending →
      updateItemQuantity o orderItemId q =
        (some "Cannot modify items in current order status", o)) ∧
    (∀ (o : Order) (it : OrderItem) (o' : Order),
      addItem o it = (none, o') → o.status = .Pending) ∧
    (∀ (o : Order) (orderItemId : String) (o' : Order),
      removeItem o orderItemId = (none, o') → o.status = .Pending) ∧
    (∀ (o : Order) (orderItemId : String) (q : ℚ) (o' : Order),
      updateItemQuantity o orderItemId q = (none, o') → o.status = .Pending) ∧
    (∀ (o : Order) (s : OrderStatus) (a : ℚ),
      updateDiscountAmount { o with status := s } a =
        ((updateDiscountAmount o a).1, { (updateDiscountAmount o a).2 with status := s })) ∧
    (∀ (o : Order) (a : ℚ), 0 ≤ round a →
      round a ≤ calculateTotalAfterItemDiscounts o.items →
      updateDiscountAmount o a = (none, { o with orderDiscount := round a })) := by
  refine ⟨?_, ?_, ?_, ?_, ?_, ?_, ?_, ?_⟩
  · intro o it h; rw [addItem, if_neg (by simpa [canModifyItems] using h)]
  · intro o orderItemId h; rw [removeItem, if_neg (by simpa [canModifyItems] using h)]
  · intro o orderItemId q h
    rw [updateItemQuantity, if_neg (by simpa [canModifyItems] using h)]
  · intro o it o' h; exact (addItem_ok h).1
  · intro o orderItemId o' h; exact (removeItem_ok h).1
  · intro o orderItemId q o' h; exact (updateItemQuantity_ok h).1
  · intro o s a
    by_cases hneg : round a < 0
    · simp [updateDiscountAmount, if_pos hneg]
    · by_cases hgt : round a > calculateTotalAfterItemDiscounts o.items
      · simp [updateDiscountAmount, if_neg hneg, if_pos hgt]
      · simp [updateDiscountAmount, if_neg hneg, if_neg hgt]
  · intro o a h1 h2
    rw [updateDiscountAmount]
    simp only [not_lt.mpr h1, if_false]
    rw [if_neg (not_lt.mpr h2)]

/-- Witness for C7: on the sample order moved to Cancelled, `addItem` fails
with the fixed error and leaves the order unchanged, while
`updateDiscountAmount 20` still commits. -/
theorem c7_witness :
    addItem { sampleOrder with status := .Cancelled } sampleItem =
      (some "Cannot modify items in current order status",
        { sampleOrder with status := .Cancelled }) ∧
    updateDiscountAmount { sampleOrder with status := .Cancelled } 20 =
      (none, { sampleOrder with status := .Cancelled, orderDiscount := round 20 }) :=
  ⟨c7_status_gating.1 { sampleOrder with status := .Cancelled } sampleItem (by decide),
    c7_status_gating.2.2.2.2.2.2.2 { sampleOrder with status := .Cancelled } 20
      round_twenty_nonneg round_twenty_le_sample_total⟩

/-- C4: on a Pending order, when appending an item (or setting a new
quantity) drops the total strictly below the current order discount, the
operation raises the discount-exceeds-total error but the mutation is not
rolled back: the post-state keeps the appended item (respectively the new
quantity). -/
theorem c4_no_rollback :
    (∀ (o : Order) (it : OrderItem), o.status = .Pending →
      calculateTotalAfterItemDiscounts (o.items ++ [it]) < o.orderDiscount →
      addItem o it = (some "Discount amount cannot be greater than total amount",
        { o with items := o.items ++ [it] })) ∧
    (∀ (o : Order) (orderItemId : String) (q : ℚ), o.status = .Pending → 0 < q →
      (o.items.find? (fun it => it.orderItemId = orderItemId)).isSome →
      calculateTotalAfterItemDiscounts (setQuantityFirst o.items orderItemId q) <
        o.orderDiscount →
      updateItemQuantity o orderItemId q =
        (some "Discount amount cannot be greater than total amount",
          { o with items := setQuantityFirst o.items orderItemId q })) := by
  constructor
  · intro o it hs hlt
    rw [addItem, if_pos (show canModifyItems o from hs)]
    simp only [validateOrderDiscount, Prod.mk.injEq]
    exact ⟨by rw [if_pos (by simpa using hlt)], trivial⟩
  · intro o orderItemId q hs hq hfind hlt
    rw [updateItemQuantity, if_pos (show canModifyItems o from hs), if_neg (not_le.mpr hq)]
    obtain ⟨it0, hf⟩ := Option.isSome_iff_exists.mp hfind
    rw [hf]
    simp only [validateOrderDiscount, Prod.mk.injEq]
    exact ⟨by rw [if_pos (by simpa using hlt)], trivial⟩

/-- Witness for C4: appending `badItem` (line discount 100 against a line
subtotal of 0) to `orderA` (discount 50) yields the error yet keeps the
item appended. -/
theorem c4_witness :
    addItem orderA badItem =
      (some "Discount amount cannot be greater than total amount",
        { orderA with items := orderA.items ++ [badItem] }) :=
  c4_no_rollback.1 orderA badItem rfl
    (by rw [show orderA.items ++ [badItem] = [itemA, badItem] from rfl,
      total_itemA_badItem]; norm_num [orderA])

/-- C5: on a Pending order, `removeItem` fails when the id is absent, when
exactly one item is held, or when the current discount exceeds the total
recomputed over the remaining items; every failure leaves the order
unchanged, and the removal commits exactly when all three checks pass. -/
theorem c5_removeItem :
    ∀ (o : Order) (orderItemId : String), o.status = .Pending →
      (o.items.find? (fun it => it.orderItemId = orderItemId) = none →
        removeItem o orderItemId = (some "Item not found in order", o)) ∧
      ((o.items.find? (fun it => it.orderItemId = orderItemId)).isSome →
        o.items.length = 1 →
        removeItem o orderItemId = (some "Cannot remove last item from order", o)) ∧
      ((o.items.find? (fun it => it.orderItemId = orderItemId)).isSome →
        o.items.length ≠ 1 →
        calculateTotalAfterItemDiscounts
            (o.items.filter (fun it => ¬ it.orderItemId = orderItemId)) < o.orderDiscount →
        removeItem o orderItemId =
          (some "Discount amount cannot be greater than total amount", o)) ∧
      ((o.items.find? (fun it => it.orderItemId = orderItemId)).isSome →
        o.items.length ≠ 1 →
        o.orderDiscount ≤ calculateTotalAfterItemDiscounts
          (o.items.filter (fun it => ¬ it.orderItemId = orderItemId)) →
        removeItem o orderItemId =
          (none, { o with items :=
            o.items.filter (fun it => ¬ it.orderItemId = orderItemId) })) := by
  intro o orderItemId hs
  have hm : canModifyItems o := hs
  refine ⟨?_, ?_, ?_, ?_⟩
  · intro hf
    rw [removeItem, if_pos hm, hf]
  · intro hfind hlen
    obtain ⟨it0, hf⟩ := Option.isSome_iff_exists.mp hfind
    rw [removeItem, if_pos hm, hf, if_pos hlen]
  · intro hfind hlen hlt
    obtain ⟨it0, hf⟩ := Option.isSome_iff_exists.mp hfind
    rw [removeItem, if_pos hm, hf, if_neg hlen, if_pos (by simpa using hlt)]
  · intro hfind hlen hle
    obtain ⟨it0, hf⟩ := Option.isSome_iff_exists.mp hfind
    rw [removeItem, if_pos hm, hf, if_neg hlen, if_neg (not_lt.mpr hle)]

/-- Witness for C5: removing "item-2" from the two-item order `orderB`
(discount 0) passes all three checks and commits the filtered item list. -/
theorem c5_witness :
    removeItem orderB "item-2" =
      (none, { orderB with items :=
        orderB.items.filter (fun it => ¬ it.orderItemId = "item-2") }) :=
  (c5_removeItem orderB "item-2" rfl).2.2.2 (by decide) (by decide)
    (by rw [show orderB.items.filter (fun it => ¬ it.orderItemId = "item-2") = [itemA] by decide,
      total_itemA]; norm_num [orderB])

/-- C10: on a Pending order whose items may contain several entries with
the same id (a state `addItem` permits), one successful `removeItem` call
filters out every item carrying the argument id, with the existence and
last-item checks evaluated before the removal commits. -/
theorem c10_removeItem_removes_all :
    ∀ (o : Order) (orderItemId : String), o.status = .Pending →
      (removeItem o orderItemId).1 = none →
      (o.items.find? (fun it => it.orderItemId = orderItemId)).isSome ∧
      o.items.length ≠ 1 ∧
      (removeItem o orderItemId).2.items =
        o.items.filter (fun it => ¬ it.orderItemId = orderItemId) ∧
      ∀ it, it ∈ (removeItem o orderItemId).2.items → it.orderItemId ≠ orderItemId := by
  intro o orderItemId hs hok
  have h : removeItem o orderItemId = (none, (removeItem o orderItemId).2) := by
    rw [← hok]
  obtain ⟨hm, hfind, hlen, heq, hle⟩ := removeItem_ok h
  refine ⟨hfind, hlen, by rw [heq], ?_⟩
  intro it hit
  rw [heq] at hit
  simp only [List.mem_filter, decide_not] at hit
  simpa using hit.2

/-- Witness for C10: `orderD` holds two items with id "item-1" (plus
`itemB`); removing "item-1" succeeds and removes both occurrences. -/
theorem c10_witness :
    ((removeItem orderD "item-1").2.items =
      orderD.items.filter (fun it => ¬ it.orderItemId = "item-1")) ∧
    ∀ it, it ∈ (removeItem orderD "item-1").2.items → it.orderItemId ≠ "item-1" := by
  have hok : (removeItem orderD "item-1").1 = none := by
    rw [removeItem, if_pos (show canModifyItems orderD from rfl),
      show orderD.items.find? (fun it => it.orderItemId = "item-1") = some itemA by decide,
      if_neg (by decide),
      show orderD.items.filter (fun it => ¬ it.orderItemId = "item-1") = [itemB] by decide,
      if_neg (by rw [total_itemB]; norm_num [orderD])]
  have h := c10_removeItem_removes_all orderD "item-1" rfl hok
  exact ⟨h.2.2.1, h.2.2.2⟩

/-- C1 is false as stated: from a validly created order (discount 50
against a total of 100), a FAILED `addItem` of an item whose line discount
exceeds its own subtotal leaves the item appended, producing a reachable
state whose order discount (50) exceeds its total (0); the attempt fails
but does mutate state. -/
theorem c1_counterexample :
    create "order-A" "user-A" [itemA] 50 0 = .ok orderA ∧
    (addItem orderA badItem).1 =
      some "Discount amount cannot be greater than total amount" ∧
    (addItem orderA badItem).2 ≠ orderA ∧
    ¬ ((addItem orderA badItem).2.orderDiscount ≤
        calculateTotalAfterItemDiscounts (addItem orderA badItem).2.items) := by
  have hadd : addItem orderA badItem =
      (some "Discount amount cannot be greater than total amount",
        { orderA with items := orderA.items ++ [badItem] }) := by
    rw [addItem, if_pos (show canModifyItems orderA from rfl)]
    have hcond : ({ orderA with items := orderA.items ++ [badItem] } : Order).orderDiscount >
        calculateTotalAfterItemDiscounts
          ({ orderA with items := orderA.items ++ [badItem] } : Order).items := by
      show (50 : ℚ) > calculateTotalAfterItemDiscounts [itemA, badItem]
      rw [total_itemA_badItem]
      norm_num
    simp only [validateOrderDiscount]
    rw [if_pos hcond]
  refine ⟨create_orderA, by rw [hadd], ?_, ?_⟩
  · rw [hadd]
    intro h
    have hitems := congrArg Order.items h
    simp [orderA] at hitems
  · rw [hadd]
    show ¬ ((50 : ℚ) ≤ calculateTotalAfterItemDiscounts [itemA, badItem])
    rw [total_itemA_badItem]
    norm_num

/-- C1 (amended): for every state reachable through `create` and any
sequence of SUCCESSFUL operations, `0 <= orderDiscount <= totalAmount`,
and `updateDiscountAmount` with an out-of-range rounded amount fails
without mutating state.  (A failing `addItem`/`updateItemQuantity` can,
by contrast, leave a reachable state violating the upper bound, as the
counterexample shows.) -/
theorem c1_discount_invariant :
    (∀ o : Order, Reachable o →
      0 ≤ o.orderDiscount ∧
      o.orderDiscount ≤ calculateTotalAfterItemDiscounts o.items) ∧
    (∀ (o : Order) (a : ℚ),
      round a < 0 ∨ calculateTotalAfterItemDiscounts o.items < round a →
      (updateDiscountAmount o a).1.isSome ∧ (updateDiscountAmount o a).2 = o) := by
  constructor
  · intro o h
    induction h with
    | created oid uid items d now o hc =>
      obtain ⟨_, _, _, h4, h5, rfl⟩ := create_ok hc
      exact ⟨h4, h5⟩
    | stepStatus o s o' _ hstep ih =>
      obtain ⟨_, rfl⟩ := updateStatus_ok hstep
      exact ih
    | stepAdd o it o' _ hstep ih =>
      obtain ⟨_, rfl, hle⟩ := addItem_ok hstep
      exact ⟨ih.1, hle⟩
    | stepRemove o orderItemId o' _ hstep ih =>
      obtain ⟨_, _, _, rfl, hle⟩ := removeItem_ok hstep
      exact ⟨ih.1, hle⟩
    | stepQuantity o orderItemId q o' _ hstep ih =>
      obtain ⟨_, _, _, rfl, hle⟩ := updateItemQuantity_ok hstep
      exact ⟨ih.1, hle⟩
    | stepDiscount o a o' _ hstep ih =>
      obtain ⟨h1, h2, rfl⟩ := updateDiscountAmount_ok hstep
      exact ⟨h1, h2⟩
  · intro o a h
    rcases h with h | h
    · simp [updateDiscountAmount, if_pos h]
    · by_cases hneg : round a < 0
      · simp [updateDiscountAmount, if_pos hneg]
      · simp [updateDiscountAmount, if_neg hneg, if_pos (show round a > _ from h)]

/-- Witness for C1: the sample order created by the factory satisfies the
invariant. -/
theorem c1_witness :
    0 ≤ sampleOrder.orderDiscount ∧
      sampleOrder.orderDiscount ≤ calculateTotalAfterItemDiscounts sampleOrder.items :=
  c1_discount_invariant.1 sampleOrder
    (Reachable.created "order-123" "user-123" [sampleItem] 5 0 sampleOrder create_sample)

/-- C8 is false as stated: the negative exact half-cent -0.005 rounds to 0
(toward zero, i.e. toward positive infinity), not to -0.01 as
round-half-away-from-zero would require. -/
theorem c8_counterexample :
    round (-(1/200)) = 0 ∧ round (-(1/200)) ≠ -(1/100) := by
  have h : round (-(1/200)) = 0 := by rw [round_eq]; norm_num
  exact ⟨h, by rw [h]; norm_num⟩

/-- C8 (amended): the rounding function rounds to the nearest cent with
ties toward positive infinity (round-half-up): the result is an integer
number of cents and is the unique such value in (v - 1/200, v + 1/200];
hence positive exact half-cents round away from zero while negative ones
round toward zero. -/
theorem c8_round_half_up :
    (∀ v : ℚ, (∃ n : ℤ, round v = (n : ℚ) / 100) ∧
      v - 1/200 < round v ∧ round v ≤ v + 1/200) ∧
    round (1/200) = 1/100 ∧ round (-(1/200)) = 0 := by
  refine ⟨fun v => ?_, by rw [round_eq]; norm_num, by rw [round_eq]; norm_num⟩
  rw [round_eq]
  refine ⟨⟨Int.floor (v * 100 + 1/2), rfl⟩, ?_, ?_⟩
  · have h2 : v * 100 + 1/2 < Int.floor (v * 100 + 1/2) + 1 := Int.lt_floor_add_one _
    linarith
  · have h1 : (Int.floor (v * 100 + 1/2) : ℚ) ≤ v * 100 + 1/2 := Int.floor_le _
    linarith

/-- C9 is false as stated: `addItem` never checks id uniqueness, so adding
`dupItem` (same id "item-1" as the stored item) to a validly created order
SUCCEEDS and yields a state whose stored ids are no longer pairwise
distinct. -/
theorem c9_counterexample :
    create "order-C" "user-C" [itemA] 0 0 = .ok orderC ∧
    (orderC.items.map (fun it => it.orderItemId)).Nodup ∧
    dupItem.orderItemId ∈ orderC.items.map (fun it => it.orderItemId) ∧
    (addItem orderC dupItem).1 = none ∧
    ¬ ((addItem orderC dupItem).2.items.map (fun it => it.orderItemId)).Nodup := by
  have hadd : addItem orderC dupItem =
      (none, { orderC with items := orderC.items ++ [dupItem] }) := by
    rw [addItem, if_pos (show canModifyItems orderC from rfl)]
    have hcond : ¬ ({ orderC with items := orderC.items ++ [dupItem] } : Order).orderDiscount >
        calculateTotalAfterItemDiscounts
          ({ orderC with items := orderC.items ++ [dupItem] } : Order).items := by
      show ¬ (0 : ℚ) > calculateTotalAfterItemDiscounts [itemA, dupItem]
      rw [total_itemA_dupItem]
      norm_num
    simp only [validateOrderDiscount]
    rw [if_neg hcond]
  refine ⟨create_orderC, by decide, by decide, by rw [hadd], by rw [hadd]; decide⟩

/-- C9 (amended): pairwise distinctness of the stored `orderItemId`s is
preserved by `create` (given distinct input ids), by every successful
`updateStatus`, `removeItem`, `updateItemQuantity` and
`updateDiscountAmount`, and by a successful `addItem` whose item id is not
already present — but `addItem` performs no uniqueness check, so adding an
already-present id succeeds and breaks distinctness (see the
counterexample). -/
theorem c9_id_uniqueness :
    (∀ (orderId userId : String) (items : List OrderItem) (d now : ℚ) (o : Order),
      create orderId userId items d now = .ok o →
      (items.map (fun it => it.orderItemId)).Nodup →
      (o.items.map (fun it => it.orderItemId)).Nodup) ∧
    (∀ (o : Order) (s : OrderStatus) (o' : Order), updateStatus o s = (none, o') →
      (o.items.map (fun it => it.orderItemId)).Nodup →
      (o'.items.map (fun it => it.orderItemId)).Nodup) ∧
    (∀ (o : Order) (orderItemId : String) (o' : Order),
      removeItem o orderItemId = (none, o') →
      (o.items.map (fun it => it.orderItemId)).Nodup →
      (o'.items.map (fun it => it.orderItemId)).Nodup) ∧
    (∀ (o : Order) (orderItemId : String) (q : ℚ) (o' : Order),
      updateItemQuantity o orderItemId q = (none, o') →
      (o.items.map (fun it => it.orderItemId)).Nodup →
      (o'.items.map (fun it => it.orderItemId)).Nodup) ∧
    (∀ (o : Order) (a : ℚ) (o' : Order), updateDiscountAmount o a = (none, o') →
      (o.items.map (fun it => it.orderItemId)).Nodup →
      (o'.items.map (fun it => it.orderItemId)).Nodup) ∧
    (∀ (o : Order) (it : OrderItem) (o' : Order), addItem o it = (none, o') →
      (o.items.map (fun x => x.orderItemId)).Nodup →
      it.orderItemId ∉ o.items.map (fun x => x.orderItemId) →
      (o'.items.map (fun x => x.orderItemId)).Nodup) := by
  refine ⟨?_, ?_, ?_, ?_, ?_, ?_⟩
  · intro orderId userId items d now o hc hnd
    obtain ⟨_, _, _, _, _, rfl⟩ := create_ok hc
    exact hnd
  · intro o s o' hstep hnd
    obtain ⟨_, rfl⟩ := updateStatus_ok hstep
    exact hnd
  · intro o orderItemId o' hstep hnd
    obtain ⟨_, _, _, rfl, _⟩ := removeItem_ok hstep
    exact hnd.sublist
      (List.Sublist.map (fun it => it.orderItemId) (List.filter_sublist o.items))
  · intro o orderItemId q o' hstep hnd
    obtain ⟨_, _, _, rfl, _⟩ := updateItemQuantity_ok hstep
    show ((setQuantityFirst o.items orderItemId q).map (fun it => it.orderItemId)).Nodup
    rw [setQuantityFirst_map_ids]
    exact hnd
  · intro o a o' hstep hnd
    obtain ⟨_, _, rfl⟩ := updateDiscountAmount_ok hstep
    exact hnd
  · intro o it o' hstep hnd hmem
    obtain ⟨_, rfl, _⟩ := addItem_ok hstep
    show (((o.items ++ [it]).map (fun x => x.orderItemId))).Nodup
    rw [List.map_append, List.nodup_append]
    refine ⟨hnd, by simp, ?_⟩
    intro a ha hb
    simp only [List.map_cons, List.map_nil, List.mem_singleton] at hb
    rw [hb] at ha
    exact hmem ha

/-- Witness for C9: the sample order's single stored id is trivially
pairwise distinct, via the `create` preservation case. -/
theorem c9_witness :
    (sampleOrder.items.map (fun it => it.orderItemId)).Nodup :=
  c9_id_uniqueness.1 "order-123" "user-123" [sampleItem] 5 0 sampleOrder
    create_sample (by decide)

end EcommerceOrder
